import Mathlib

/-
Verification of the operator-console (OC11) subsystem of src/PDP11/opcon.c.

The C control block `oc_st oc_ctl` is embedded as the structure `OcState`;
every serial write the device performs is recorded as a `Frame`; the
pseudo-command strings produced for the simulator's command reader are
embedded as the inductive `Cmd`.  External inputs (the byte read from the
console, the 5-byte switch snapshot answered to a 'Q' query, the MMU mode
bits MMR0/MMR3, the configured memory size and the cpu model) are passed
as explicit parameters.  Machine integers are Nat with the masks of the
source applied where the source applies them.
-/

namespace Opcon

/-- Hardware variants supported by the device (cpu_model values used in opcon.c). -/
inductive Model where
  | m1105
  | m1120
  | m1140
  | m1145
  | m1170
  deriving DecidableEq, Repr

/-- Input-port indices INP1..INP5 of opcon.c. -/
def INP1 : Nat := 0

def INP2 : Nat := 1

def INP3 : Nat := 2

def INP4 : Nat := 3

def INP5 : Nat := 4

/-- Ack_toggle flag ACK_DEPO of opcon.c. -/
def ACK_DEPO : Nat := 0x40

def ACK_CONT : Nat := 0x08

def ACK_LOAD : Nat := 0x04

def ACK_START : Nat := 0x02

def ACK_EXAM : Nat := 0x01

/-- Protection mode MD_KER (KERNEL) as defined in opcon.c. -/
def MD_KER : Nat := 0

def MD_SUP : Nat := 1

def MD_UND : Nat := 2

def MD_USR : Nat := 3

/-- Modelled from the spec: the FSTS_* status-LED bit masks come from the
repository's header opcon.h, which is not present under src/; the spec only
says each is a single bit of one of the two status bytes owned by one
producer, so representative single-bit values are used.  No theorem below
depends on the numeric value of any FSTS_* constant. -/
def FSTS_1145_ADRSERR : Nat := 0x80

def FSTS_1170_ADRSERR : Nat := 0x80

def FSTS_1140_VIRTUAL : Nat := 0x02

def FSTS_1140_USER : Nat := 0x01

/-- Halt-bit mask SW_HE_1105 of opcon.c (same value for 11/20, 11/40, 11/45). -/
def SW_HE_1105 : Nat := 0x01

def SW_HE_1120 : Nat := 0x01

def SW_HE_1140 : Nat := 0x01

def SW_HE_1145 : Nat := 0x01

def SW_HE_1170 : Nat := 0x40

/-- The five raw switch bytes answered by the console to a 'Q' query. -/
structure Swr where
  s0 : Nat
  s1 : Nat
  s2 : Nat
  s3 : Nat
  s4 : Nat
  deriving DecidableEq, Repr

/-- The OC control block oc_ctl together with the link-receiver flag
oc_ldsc.rcve and the external flag stop_cpu written by the device.
S0..S4 embed the input-port array oc_ctl.S[INP1..INP5]. -/
structure OcState where
  rcve : Bool
  S0 : Nat
  S1 : Nat
  S2 : Nat
  S3 : Nat
  S4 : Nat
  act_addr : Nat
  inv_addr : Bool
  first_exam : Bool
  first_dep : Bool
  halt : Nat
  port1 : Nat
  port2 : Nat
  c_upd : Nat
  c_rot : Nat
  stop_cpu : Bool
  deriving DecidableEq, Repr

/-- One outbound wire frame, with the payload bytes exactly as the
corresponding oc_send_* / oc_toggle_* / query routine of opcon.c computes
them ('F' status, 'A' address, 'D' data, 'B' address+data, 'U' send-all,
'c' acknowledge-one-toggle, 'i' clear-all-toggles, 'Q' query switches,
'R' query rotary). -/
inductive Frame where
  | fstatus (b1 b2 : Nat)
  | faddr (b1 b2 b3 : Nat)
  | fdata (b1 b2 : Nat)
  | faddrdata (b1 b2 b3 b4 b5 : Nat)
  | fall (b1 b2 b3 b4 b5 b6 b7 : Nat)
  | fack (port mask : Nat)
  | fclear
  | fquery
  | frotary
  deriving DecidableEq, Repr

/-- The pseudo-command string written into cptr by oc_get_console
(comment lines starting with ';' and real commands alike). -/
inductive Cmd where
  | haltKeyDown
  | haltKeyUp
  | step
  | cont
  | outOfRange
  | bootRom
  | deposit (a d : Nat)
  | loadAddress (a : Nat)
  | resetAll
  | run (a : Nat)
  | examine (a : Nat)
  deriving DecidableEq, Repr

/-- MMU top-byte mask derived from MMR0/MMR3 exactly as the send routines
of opcon.c derive it: 0x00 for 16-bit, 0x03 for 18-bit, 0x3F for 22-bit. -/
def mmuMask (mme m22e : Bool) : Nat :=
  if mme then (if m22e then 0x3F else 0x03) else 0x00

/-- oc_port1 of opcon.c: set or clear the bits of `flag` in port1
(`~flag` on the uint8 field is flag XOR 0xFF). -/
def oc_port1 (s : OcState) (flag : Nat) (action : Bool) : OcState :=
  if !action then { s with port1 := s.port1 &&& (flag ^^^ 0xFF) }
  else { s with port1 := s.port1 ||| flag }

/-- oc_port2 of opcon.c. -/
def oc_port2 (s : OcState) (flag : Nat) (action : Bool) : OcState :=
  if !action then { s with port2 := s.port2 &&& (flag ^^^ 0xFF) }
  else { s with port2 := s.port2 ||| flag }

/-- oc_send_status of opcon.c: 'F' port1 port2, nothing when the link is down. -/
def oc_send_status (s : OcState) : List Frame :=
  if !s.rcve then [] else [Frame.fstatus s.port1 s.port2]

/-- oc_send_address of opcon.c: 'A' frame, big-endian, top byte masked. -/
def oc_send_address (s : OcState) (mask A : Nat) : List Frame :=
  if !s.rcve then []
  else [Frame.faddr ((A >>> 16) &&& mask) ((A >>> 8) &&& 0xFF) (A &&& 0xFF)]

/-- oc_send_data of opcon.c: 'D' frame, 2 bytes big-endian. -/
def oc_send_data (s : OcState) (D : Nat) : List Frame :=
  if !s.rcve then [] else [Frame.fdata ((D >>> 8) &&& 0xFF) (D &&& 0xFF)]

/-- oc_send_address_data of opcon.c: 'B' frame, address then data, big-endian,
only the top address byte masked. -/
def oc_send_address_data (s : OcState) (mask A D : Nat) : List Frame :=
  if !s.rcve then []
  else [Frame.faddrdata ((A >>> 16) &&& mask) ((A >>> 8) &&& 0xFF) (A &&& 0xFF)
          ((D >>> 8) &&& 0xFF) (D &&& 0xFF)]

/-- oc_send_all of opcon.c: 'U' frame, address, data and the two status bytes. -/
def oc_send_all (s : OcState) (mask A D : Nat) : List Frame :=
  if !s.rcve then []
  else [Frame.fall ((A >>> 16) &&& mask) ((A >>> 8) &&& 0xFF) (A &&& 0xFF)
          ((D >>> 8) &&& 0xFF) (D &&& 0xFF) s.port1 s.port2]

/-- oc_toggle_ack of opcon.c: 'c' frame with port byte INP3+0x30 (every model
uses INP3) and the ack mask. -/
def oc_toggle_ack (s : OcState) (mask : Nat) : List Frame :=
  if !s.rcve then [] else [Frame.fack (INP3 + 0x30) mask]

/-- oc_toggle_clear of opcon.c: single 'i' byte clearing all toggles. -/
def oc_toggle_clear (s : OcState) : List Frame :=
  if !s.rcve then [] else [Frame.fclear]

/-- oc_get_swr of opcon.c: send 'Q' and store the 5 answered bytes in S[]. -/
def oc_get_swr (s : OcState) (sw : Swr) : OcState × List Frame :=
  if !s.rcve then (s, [])
  else ({ s with S0 := sw.s0, S1 := sw.s1, S2 := sw.s2, S3 := sw.s3, S4 := sw.s4 },
        [Frame.fquery])

/-- oc_get_rotary of opcon.c: only the 11/45 and 11/70 send 'R'; the answered
byte is stored in S[INP3] (11/45) or S[INP5] (11/70). -/
def oc_get_rotary (m : Model) (s : OcState) (b : Nat) : OcState × List Frame :=
  if !s.rcve then (s, [])
  else
    match m with
    | Model.m1145 => ({ s with S2 := b }, [Frame.frotary])
    | Model.m1170 => ({ s with S4 := b }, [Frame.frotary])
    | _ => (s, [])

/-- oc_clear_halt of opcon.c: clear the model's HALT bit in the S[] array,
set halt mode 0 and send clear-all-toggles. -/
def oc_clear_halt (m : Model) (s : OcState) : OcState × List Frame :=
  let s1 :=
    match m with
    | Model.m1105 => { s with S1 := s.S1 &&& (SW_HE_1105 ^^^ 0xFFFFFFFF) }
    | Model.m1120 => { s with S2 := s.S2 &&& (SW_HE_1120 ^^^ 0xFFFFFFFF) }
    | Model.m1140 => { s with S2 := s.S2 &&& (SW_HE_1140 ^^^ 0xFFFFFFFF) }
    | Model.m1145 => { s with S3 := s.S3 &&& (SW_HE_1145 ^^^ 0xFFFFFFFF) }
    | Model.m1170 => { s with S3 := s.S3 &&& (SW_HE_1170 ^^^ 0xFFFFFFFF) }
  let s2 := { s1 with halt := 0 }
  (s2, oc_toggle_clear s2)

/-- oc_get_halt of opcon.c: non-blocking read of one byte `b` (0 when nothing
is pending); 'H' flags halt mode 2, any of "cdlsx" only clears all toggles. -/
def oc_get_halt (m : Model) (s : OcState) (b : Nat) : OcState × List Frame × Bool :=
  if !s.rcve then (s, [], false)
  else if b = 0 then (s, [], false)
  else if b = 72 then ({ s with halt := 2 }, [], true)
  else if b = 99 ∨ b = 100 ∨ b = 108 ∨ b = 115 ∨ b = 120 then (s, oc_toggle_clear s, false)
  else (s, [], false)

/-- oc_extract_address of opcon.c: combine S[INP3]*65536 + S[INP2]*256 + S[INP1],
mask to the model's address width and derive inv_addr (the I/O page stays
in range even above the configured memory size). -/
def oc_extract_address (m : Model) (memsize : Nat) (s : OcState) : Nat × OcState :=
  let A0 := s.S2 * 65536 + s.S1 * 256 + s.S0
  match m with
  | Model.m1105 | Model.m1120 =>
      let A := A0 &&& 0xFFFF
      (A, { s with inv_addr := decide (A ≥ memsize ∧ ¬(A > 0xDFFF ∧ A < 0xFFFF)) })
  | Model.m1140 | Model.m1145 =>
      let A := A0 &&& 0x3FFFF
      (A, { s with inv_addr := decide (A ≥ memsize ∧ ¬(A > 0x3DFFF ∧ A < 0x3FFFF)) })
  | Model.m1170 =>
      let A := A0 &&& 0x3FFFFF
      (A, { s with inv_addr := decide (A ≥ memsize ∧ ¬(A > 0x3FDFFF ∧ A < 0x3FFFFF)) })

/-- Documented address-mask width per model (0xFFFF / 0x3FFFF / 0x3FFFFF),
the masks applied case by case inside oc_extract_address. -/
def modelMask : Model → Nat
  | Model.m1105 => 0xFFFF
  | Model.m1120 => 0xFFFF
  | Model.m1140 => 0x3FFFF
  | Model.m1145 => 0x3FFFF
  | Model.m1170 => 0x3FFFFF

/-- oc_extract_data of opcon.c: S[INP2]*256 + S[INP1]. -/
def oc_extract_data (s : OcState) : Nat :=
  s.S1 * 256 + s.S0

/-- The shared auto-increment applied by the 'd' and 'x' arms of
oc_get_console: +1 inside the CPU register alias window 0x3FFC0..0x3FFC7,
else +2 with wrap to 0 above 0x3FFFFE and odd results forced even. -/
def incrAddr (a : Nat) : Nat :=
  if a ≥ 0x3FFC0 ∧ a ≤ 0x3FFC7 then a + 1
  else
    let a1 := a + 2
    let a2 := if a1 > 0x3FFFFE then 0 else a1
    if a2 &&& 1 ≠ 0 then a2 &&& 0x3FFFFE else a2

/-- The boot-ROM range test of the 'd' arm of oc_get_console, with all four
comparisons taken on act_addr & 0x0003FFFF exactly as in the source. -/
def bootRomHit (a : Nat) : Bool :=
  decide (((a &&& 0x3FFFF) ≥ 0x3FEA00 ∧ (a &&& 0x3FFFF) < 0x3FEC00) ∨
          ((a &&& 0x3FFFF) ≥ 0xEA00 ∧ (a &&& 0x3FFFF) < 0xEC00) ∨
          ((a &&& 0x3FFFF) ≥ 0x3FF600 ∧ (a &&& 0x3FFFF) < 0x3FF800) ∨
          ((a &&& 0x3FFFF) ≥ 0xF600 ∧ (a &&& 0x3FFFF) < 0xF800))

/-- Case 'H' of oc_get_console: force halt mode 2. -/
def handle_H (s : OcState) : OcState × List Frame × Cmd :=
  ({ s with halt := 2 }, [], Cmd.haltKeyDown)

/-- Case 'E' of oc_get_console: force halt mode 1 and clear all toggles
(the ACK_CONT acknowledge call is commented out in the source). -/
def handle_E (s : OcState) : OcState × List Frame × Cmd :=
  let s1 := { s with halt := 1 }
  (s1, oc_toggle_clear s1, Cmd.haltKeyUp)

/-- Case 'c' (CONTINUE) of oc_get_console: acknowledge ACK_CONT, then either
"step" (halt mode 2) or "continue" with the address-error LED cleared on
11/45 and 11/70 and the halt state cleared. -/
def handle_c (m : Model) (s : OcState) : OcState × List Frame × Cmd :=
  let af := oc_toggle_ack s ACK_CONT
  if s.halt = 2 then (s, af, Cmd.step)
  else
    let s1 := if m = Model.m1145 then oc_port1 s FSTS_1145_ADRSERR false else s
    let s2 := if m = Model.m1170 then oc_port1 s1 FSTS_1170_ADRSERR false else s1
    let ch := oc_clear_halt m s2
    (ch.1, af ++ ch.2, Cmd.cont)

/-- Case 'd' (DEPOSIT) of oc_get_console: refresh switches, auto-increment
unless first deposit, then reject out-of-range or boot-ROM targets, else
deposit and send the 'B' frame; ACK_DEPO is acknowledged on every path. -/
def handle_d (m : Model) (mask : Nat) (s : OcState) (sw : Swr) : OcState × List Frame × Cmd :=
  let q := oc_get_swr s sw
  let s2 := if q.1.first_dep = false then { q.1 with act_addr := incrAddr q.1.act_addr } else q.1
  if s2.inv_addr then
    let s3 :=
      match m with
      | Model.m1105 | Model.m1120 => { s2 with stop_cpu := true }
      | Model.m1140 => s2
      | Model.m1145 => oc_port1 s2 FSTS_1145_ADRSERR true
      | Model.m1170 => oc_port1 s2 FSTS_1170_ADRSERR true
    (s3, q.2 ++ oc_toggle_ack s3 ACK_DEPO, Cmd.outOfRange)
  else if bootRomHit s2.act_addr then
    (s2, q.2 ++ oc_toggle_ack s2 ACK_DEPO, Cmd.bootRom)
  else
    let D := oc_extract_data s2
    let s3 := { s2 with first_exam := true, first_dep := false }
    (s3, q.2 ++ oc_send_address_data s3 mask s3.act_addr D ++ oc_toggle_ack s3 ACK_DEPO,
     Cmd.deposit s3.act_addr D)

/-- Case 'l' (LOAD ADDRS) of oc_get_console: clear the address-error LED on
11/45 and 11/70, refresh switches, reset both first-flags, recompute
act_addr from the switches, send the 'A' frame and acknowledge ACK_LOAD. -/
def handle_l (m : Model) (mask memsize : Nat) (s : OcState) (sw : Swr) :
    OcState × List Frame × Cmd :=
  let s0 :=
    match m with
    | Model.m1145 => oc_port1 s FSTS_1145_ADRSERR false
    | Model.m1170 => oc_port1 s FSTS_1170_ADRSERR false
    | _ => s
  let q := oc_get_swr s0 sw
  let s2 := { q.1 with first_dep := true, first_exam := true }
  let ex := oc_extract_address m memsize s2
  let s4 := { ex.2 with act_addr := ex.1 }
  (s4, q.2 ++ oc_send_address s4 mask ex.1 ++ oc_toggle_ack s4 ACK_LOAD, Cmd.loadAddress ex.1)

/-- Case 's' (START) of oc_get_console: "reset all" when halt mode 2
(address-error LED cleared on the 11/70), else "run act_addr"; the
ACK_START acknowledge call is commented out in the source; the halt state
is cleared on both paths. -/
def handle_s (m : Model) (s : OcState) : OcState × List Frame × Cmd :=
  if s.halt = 2 then
    let s1 := if m = Model.m1170 then oc_port1 s FSTS_1170_ADRSERR false else s
    let ch := oc_clear_halt m s1
    (ch.1, ch.2, Cmd.resetAll)
  else
    let ch := oc_clear_halt m s
    (ch.1, ch.2, Cmd.run s.act_addr)

/-- Case 'x' (EXAMINE) of oc_get_console: auto-increment unless first
examine, reject out-of-range targets, else send the 'A' frame; ACK_EXAM is
acknowledged on every path. -/
def handle_x (m : Model) (mask : Nat) (s : OcState) : OcState × List Frame × Cmd :=
  let s2 := if s.first_exam = false then { s with act_addr := incrAddr s.act_addr } else s
  if s2.inv_addr then
    let s3 :=
      match m with
      | Model.m1105 | Model.m1120 => { s2 with stop_cpu := true }
      | Model.m1140 => s2
      | Model.m1145 => oc_port1 s2 FSTS_1145_ADRSERR true
      | Model.m1170 => oc_port1 s2 FSTS_1170_ADRSERR true
    (s3, oc_toggle_ack s3 ACK_EXAM, Cmd.outOfRange)
  else
    let s3 := { s2 with first_exam := false, first_dep := true }
    (s3, oc_send_address s3 mask s3.act_addr ++ oc_toggle_ack s3 ACK_EXAM,
     Cmd.examine s3.act_addr)

/-- A processed command arm followed by the final oc_send_status push. -/
def finishCmd (p : OcState × List Frame × Cmd) : Bool × OcState × List Frame × Option Cmd :=
  (true, p.1, p.2.1 ++ oc_send_status p.1, some p.2.2)

/-- oc_get_console of opcon.c.  `c` is the command byte read from the link
(0 when nothing is pending), `sw` the snapshot the console would answer to a
'Q' query, `mme`/`m22e` the MMR0/MMR3 MMU enables, `memsize` the configured
memory size.  Returns (command produced?, new state, frames written,
pseudo-command). -/
def oc_get_console (m : Model) (mme m22e : Bool) (memsize : Nat) (s : OcState)
    (c : Nat) (sw : Swr) : Bool × OcState × List Frame × Option Cmd :=
  if !s.rcve then (false, s, [], none)
  else if c = 0 then (false, s, [], none)
  else
    let mask := mmuMask mme m22e
    match c with
    | 72 => finishCmd (handle_H s)
    | 69 => finishCmd (handle_E s)
    | 99 => finishCmd (handle_c m s)
    | 100 => finishCmd (handle_d m mask s sw)
    | 108 => finishCmd (handle_l m mask memsize s sw)
    | 115 => finishCmd (handle_s m s)
    | 120 => finishCmd (handle_x m mask s)
    | _ => (false, s, [], none)

/-- The control-block state right after oc_attach: memset to zero, both
first-flags set true, the receiver marked available, halt mode 2 when the
HALT key is read down, and the queried switch snapshot stored in S[]. -/
def oc_attach_init (sw : Swr) (haltDown : Bool) : OcState :=
  { rcve := true, S0 := sw.s0, S1 := sw.s1, S2 := sw.s2, S3 := sw.s3, S4 := sw.s4,
    act_addr := 0, inv_addr := false, first_exam := true, first_dep := true,
    halt := if haltDown then 2 else 0, port1 := 0, port2 := 0,
    c_upd := 0, c_rot := 0, stop_cpu := false }

/-- oc_ringprot of opcon.c: ring-protection LEDs; on the 11/45 and 11/70 the
2-bit field in port1 is first forced to 11 and then masked per mode. -/
def oc_ringprot (m : Model) (value : Nat) (s : OcState) : OcState :=
  match m with
  | Model.m1105 | Model.m1120 => s
  | Model.m1140 =>
      if value = MD_KER then oc_port1 (oc_port1 s FSTS_1140_VIRTUAL true) FSTS_1140_USER false
      else oc_port1 (oc_port1 s FSTS_1140_VIRTUAL false) FSTS_1140_USER true
  | Model.m1145 | Model.m1170 =>
      let st0 := s.port1 ||| 0x03
      let st1 := if value = MD_KER then st0 &&& 0xFC else st0
      let st2 := if value = MD_SUP then st1 &&& 0xFD else st1
      let st3 := if value = MD_USR then st2 &&& 0xFF else st2
      { s with port1 := st3 }

/-- Per-tick external input of the service routine: the byte the console
answers to an 'R' query and the byte oc_get_halt reads (0 when none). -/
structure TickInp where
  rotByte : Nat
  haltByte : Nat
  deriving DecidableEq, Repr

/-- The MODE_1 dispatch block of oc_svc (the part after the rescheduling
time check and the display selection): post-increment c_upd against
threshold 4; on overflow send the 'U' frame, post-increment c_rot against
threshold 2 (on overflow re-poll the rotary switches) and poll for HALT;
otherwise send the 'B' frame. -/
def schedStep (m : Model) (mask A D : Nat) (inp : TickInp) (s : OcState) :
    OcState × List Frame :=
  if s.c_upd > 4 then
    let s1 := { s with c_upd := 0 }
    let fU := oc_send_all s1 mask A D
    let rp :=
      if s1.c_rot > 2 then oc_get_rotary m { s1 with c_rot := 0 } inp.rotByte
      else ({ s1 with c_rot := s1.c_rot + 1 }, ([] : List Frame))
    let hp := oc_get_halt m rp.1 inp.haltByte
    (hp.1, fU ++ rp.2 ++ hp.2.1)
  else
    ({ s with c_upd := s.c_upd + 1 }, oc_send_address_data s mask A D)

/-- Iterated service ticks (same display pair and per-tick input each tick),
returning the final state and all frames in emission order. -/
def schedRun (m : Model) (mask A D : Nat) (inp : TickInp) (s : OcState) :
    Nat → OcState × List Frame
  | 0 => (s, [])
  | n + 1 =>
      let p1 := schedStep m mask A D inp s
      let p2 := schedRun m mask A D inp p1.1 n
      (p2.1, p1.2 ++ p2.2)

/-- Frame classifier: full address+data+status ('U') frame. -/
def isU : Frame → Bool
  | Frame.fall _ _ _ _ _ _ _ => true
  | _ => false

/-- Frame classifier: address+data-only ('B') frame. -/
def isB : Frame → Bool
  | Frame.faddrdata _ _ _ _ _ => true
  | _ => false

/-- Frame classifier: rotary re-poll ('R') query. -/
def isRot : Frame → Bool
  | Frame.frotary => true
  | _ => false

/-- Frame classifier: acknowledge-one-toggle ('c' port mask) frame. -/
def isAck : Frame → Bool
  | Frame.fack _ _ => true
  | _ => false

/-- The two scheduler counters in isolation: the exact evolution the
MODE_1 block of oc_svc gives to (c_upd, c_rot) on one tick. -/
def cntStep : Nat × Nat → Nat × Nat
  | (u, r) => if u > 4 then (0, if r > 2 then 0 else r + 1) else (u + 1, r)

/-- Iterated counter evolution. -/
def cntIter : Nat × Nat → Nat → Nat × Nat
  | p, 0 => p
  | p, n + 1 => cntIter (cntStep p) n

/-- The flags invariant of claim C10: first_exam and first_dep are never
both false. -/
def flagsInv (s : OcState) : Prop :=
  s.first_exam = true ∨ s.first_dep = true

/-- Reassembly of the big-endian address payload of a 'B' frame, combining
the three bytes exactly as oc_extract_address combines its three switch
bytes (b1*65536 + b2*256 + b3). -/
def reassembleAddr : Frame → Nat
  | Frame.faddrdata b1 b2 b3 _ _ => b1 * 65536 + b2 * 256 + b3
  | _ => 0

/-- Reassembly of the big-endian data payload of a 'B' frame, combining the
two bytes exactly as oc_extract_data combines its two switch bytes. -/
def reassembleData : Frame → Nat
  | Frame.faddrdata _ _ _ b4 b5 => b4 * 256 + b5
  | _ => 0

/-- A concrete zeroed control block with the link up (the oc_attach state
for an all-zero switch snapshot and the HALT key up), used as the concrete
input of witnesses and counterexamples. -/
def zState : OcState :=
  { rcve := true, S0 := 0, S1 := 0, S2 := 0, S3 := 0, S4 := 0,
    act_addr := 0, inv_addr := false, first_exam := true, first_dep := true,
    halt := 0, port1 := 0, port2 := 0, c_upd := 0, c_rot := 0, stop_cpu := false }

/-- A concrete all-zero switch snapshot. -/
def zSwr : Swr :=
  { s0 := 0, s1 := 0, s2 := 0, s3 := 0, s4 := 0 }

/-- A concrete quiet per-tick input (no rotary answer, nothing pending). -/
def zInp : TickInp :=
  { rotByte := 0, haltByte := 0 }

/-- Expected number of 'U' (send-all) ticks in a run of n scheduler ticks
starting from the given counter pair, following cntStep. -/
def uCnt : Nat × Nat → Nat → Nat
  | _, 0 => 0
  | p, n + 1 => (if p.1 > 4 then 1 else 0) + uCnt (cntStep p) n

/-- Expected number of rotary re-polls in a run of n scheduler ticks. -/
def rotCnt : Nat × Nat → Nat → Nat
  | _, 0 => 0
  | p, n + 1 => (if p.1 > 4 ∧ p.2 > 2 then 1 else 0) + rotCnt (cntStep p) n

/-- Expected number of 'B' (address+data-only) ticks in a run of n
scheduler ticks. -/
def bCnt : Nat × Nat → Nat → Nat
  | _, 0 => 0
  | p, n + 1 => (if p.1 > 4 then 0 else 1) + bCnt (cntStep p) n

/-- Bridge lemma: masking with 0xFF is reduction mod 256. -/
theorem and_mask255 (x : Nat) : x &&& 0xFF = x % 0x100 := by
  simpa using Nat.and_pow_two_sub_one_eq_mod x 8

/-- Bridge lemma: masking with 1 is reduction mod 2. -/
theorem and_mask1 (x : Nat) : x &&& 1 = x % 2 := by
  simpa using Nat.and_pow_two_sub_one_eq_mod x 1

/-- Bridge lemma: masking with 3 is reduction mod 4. -/
theorem and_mask3 (x : Nat) : x &&& 3 = x % 4 := by
  simpa using Nat.and_pow_two_sub_one_eq_mod x 2

/-- Bridge lemma: masking with 0x3F is reduction mod 64. -/
theorem and_mask63 (x : Nat) : x &&& 0x3F = x % 0x40 := by
  simpa using Nat.and_pow_two_sub_one_eq_mod x 6

/-- Bridge lemma: masking with 0xFFFF is reduction mod 2^16. -/
theorem and_mask16 (x : Nat) : x &&& 0xFFFF = x % 0x10000 := by
  simpa using Nat.and_pow_two_sub_one_eq_mod x 16

/-- Bridge lemma: masking with 0x3FFFF is reduction mod 2^18. -/
theorem and_mask18 (x : Nat) : x &&& 0x3FFFF = x % 0x40000 := by
  simpa using Nat.and_pow_two_sub_one_eq_mod x 18

/-- Bridge lemma: masking with 0x3FFFFF is reduction mod 2^22. -/
theorem and_mask22 (x : Nat) : x &&& 0x3FFFFF = x % 0x400000 := by
  simpa using Nat.and_pow_two_sub_one_eq_mod x 22

/-- Bridge lemma: or-ing in all the bits of a mask absorbs the mask. -/
theorem lor_and_eq (p a m : Nat) (h : a &&& m = m) : (p ||| a) &&& m = m := by
  apply Nat.eq_of_testBit_eq
  intro i
  have ha := congrArg (fun t => t.testBit i) h
  simp only [Nat.testBit_land, Nat.testBit_lor] at ha ⊢
  cases hm : m.testBit i with
  | false => simp
  | true =>
    rw [hm] at ha
    simp only [Bool.and_true] at ha
    simp [ha]

/-- Bridge lemma: the even mask 0x3FFFFE clears exactly the low bit of a
22-bit value. -/
theorem and_evenmask (x : Nat) (h : x < 0x400000) : x &&& 0x3FFFFE = x - x % 2 := by
  apply Nat.eq_of_testBit_eq
  intro i
  have hx2 : x - x % 2 = 2 * (x / 2) := by omega
  cases i with
  | zero =>
    rw [hx2]
    simp only [Nat.testBit_land]
    rw [Nat.testBit_zero, Nat.testBit_zero]
    simp
  | succ i =>
    rw [hx2]
    simp only [Nat.testBit_land]
    rw [Nat.testBit_succ, Nat.testBit_succ, Nat.testBit_succ]
    have h2 : 2 * (x / 2) / 2 = x / 2 := by omega
    have h3 : (0x3FFFFE : Nat) / 2 = 0x1FFFFF := by norm_num
    rw [h2, h3]
    by_cases hi : i < 21
    · have hbit : (0x1FFFFF : Nat).testBit i = true := by
        have h21 : (0x1FFFFF : Nat) = 2 ^ 21 - 1 := by norm_num
        rw [h21, Nat.testBit_two_pow_sub_one]
        simpa using hi
      simp [hbit]
    · have hlt : x / 2 < 2 ^ i := by
        have hp : (2 : Nat) ^ 21 ≤ 2 ^ i := Nat.pow_le_pow_right (by norm_num) (by omega)
        omega
      rw [Nat.testBit_eq_false_of_lt hlt]
      simp

/-- C5: for every model profile the address extracted from the switch
snapshot by oc_extract_address is masked to the documented model width
(0xFFFF for the 11/05 and 11/20, 0x3FFFF for the 11/40 and 11/45,
0x3FFFFF for the 11/70), and re-applying the model mask to the extracted
address leaves it unchanged (masking is idempotent). -/
theorem extract_address_mask_idempotent (m : Model) (memsize : Nat) (s : OcState) :
    ((oc_extract_address m memsize s).1 &&& modelMask m = (oc_extract_address m memsize s).1) ∧
    modelMask Model.m1105 = 0xFFFF ∧ modelMask Model.m1120 = 0xFFFF ∧
    modelMask Model.m1140 = 0x3FFFF ∧ modelMask Model.m1145 = 0x3FFFF ∧
    modelMask Model.m1170 = 0x3FFFFF := by
  refine ⟨?_, rfl, rfl, rfl, rfl, rfl⟩
  cases m <;>
    simp only [oc_extract_address, modelMask, and_mask16, and_mask18, and_mask22] <;>
    omega

/-- C8: for every protection-mode value passed to oc_ringprot and every
prior status-byte state, the resulting 2-bit ring-protection field of the
11/45 and 11/70 status byte is one of the KERNEL (00), SUPER (01) or USER
(11) encodings; the fourth pattern (10) is never produced. -/
theorem ringprot_no_illegal_pattern (value : Nat) (s : OcState) :
    ((oc_ringprot Model.m1145 value s).port1 &&& 3 = 0 ∨
     (oc_ringprot Model.m1145 value s).port1 &&& 3 = 1 ∨
     (oc_ringprot Model.m1145 value s).port1 &&& 3 = 3) ∧
    ((oc_ringprot Model.m1170 value s).port1 &&& 3 = 0 ∨
     (oc_ringprot Model.m1170 value s).port1 &&& 3 = 1 ∨
     (oc_ringprot Model.m1170 value s).port1 &&& 3 = 3) ∧
    (oc_ringprot Model.m1145 value s).port1 &&& 3 ≠ 2 ∧
    (oc_ringprot Model.m1170 value s).port1 &&& 3 ≠ 2 := by
  have same : oc_ringprot Model.m1170 value s = oc_ringprot Model.m1145 value s := rfl
  have key : (oc_ringprot Model.m1145 value s).port1 &&& 3 = 0 ∨
      (oc_ringprot Model.m1145 value s).port1 &&& 3 = 1 ∨
      (oc_ringprot Model.m1145 value s).port1 &&& 3 = 3 := by
    by_cases h0 : value = 0
    · subst h0
      have e : (oc_ringprot Model.m1145 0 s).port1 = (s.port1 ||| 3) &&& 0xFC := by
        simp [oc_ringprot, MD_KER, MD_SUP, MD_USR]
      rw [e, Nat.land_assoc]
      left
      have hm : (0xFC : Nat) &&& 3 = 0 := by decide
      rw [hm]
      simp
    · by_cases h1 : value = 1
      · subst h1
        have e : (oc_ringprot Model.m1145 1 s).port1 = (s.port1 ||| 3) &&& 0xFD := by
          simp [oc_ringprot, MD_KER, MD_SUP, MD_USR]
        rw [e, Nat.land_assoc]
        right; left
        have hm : (0xFD : Nat) &&& 3 = 1 := by decide
        rw [hm]
        exact lor_and_eq s.port1 3 1 (by decide)
      · by_cases h3 : value = 3
        · subst h3
          have e : (oc_ringprot Model.m1145 3 s).port1 = (s.port1 ||| 3) &&& 0xFF := by
            simp [oc_ringprot, MD_KER, MD_SUP, MD_USR]
          rw [e, Nat.land_assoc]
          right; right
          have hm : (0xFF : Nat) &&& 3 = 3 := by decide
          rw [hm]
          exact lor_and_eq s.port1 3 3 (by decide)
        · have e : (oc_ringprot Model.m1145 value s).port1 = s.port1 ||| 3 := by
            simp [oc_ringprot, MD_KER, MD_SUP, MD_USR, h0, h1, h3]
          rw [e]
          right; right
          exact lor_and_eq s.port1 3 3 (by decide)
  have key2 : (oc_ringprot Model.m1170 value s).port1 &&& 3 = 0 ∨
      (oc_ringprot Model.m1170 value s).port1 &&& 3 = 1 ∨
      (oc_ringprot Model.m1170 value s).port1 &&& 3 = 3 := by
    rw [same]
    exact key
  refine ⟨key, key2, ?_, ?_⟩
  · rcases key with h | h | h <;> omega
  · rcases key2 with h | h | h <;> omega

/-- C9: whenever the console link is not connected (receiver flag clear),
every console operation is a no-op — oc_get_console reports nothing and
leaves the state unchanged, and every send/query operation writes no
frames and leaves the control block unchanged. -/
theorem link_down_noop (m : Model) (mme m22e : Bool) (memsize : Nat) (s : OcState)
    (c : Nat) (sw : Swr) (mask A D ackmask b : Nat) (hr : s.rcve = false) :
    oc_get_console m mme m22e memsize s c sw = (false, s, [], none) ∧
    oc_send_status s = [] ∧
    oc_send_address s mask A = [] ∧
    oc_send_data s D = [] ∧
    oc_send_address_data s mask A D = [] ∧
    oc_send_all s mask A D = [] ∧
    oc_toggle_ack s ackmask = [] ∧
    oc_toggle_clear s = [] ∧
    oc_get_swr s sw = (s, []) ∧
    oc_get_rotary m s b = (s, []) := by
  simp [oc_get_console, oc_send_status, oc_send_address, oc_send_data, oc_send_address_data,
        oc_send_all, oc_toggle_ack, oc_toggle_clear, oc_get_swr, oc_get_rotary, hr]

/-- Witness for C9 at the concrete disconnected state. -/
theorem link_down_noop_witness :
    ({ zState with rcve := false } : OcState).rcve = false ∧
    oc_get_console Model.m1105 false false 0 { zState with rcve := false } 99 zSwr
      = (false, { zState with rcve := false }, [], none) :=
  ⟨rfl, (link_down_noop Model.m1105 false false 0 { zState with rcve := false } 99 zSwr
      0 0 0 0 0 rfl).1⟩

/-- C6: processing inbound byte 'H' sets halt mode 2 (HaltDown) regardless
of the prior halt state; processing 'E' sets halt mode 1 (EnableIdle)
regardless of the prior halt state and sends the clear-all-toggles
command. -/
theorem halt_enable_commands (m : Model) (mme m22e : Bool) (memsize : Nat)
    (s : OcState) (sw : Swr) (hr : s.rcve = true) :
    (oc_get_console m mme m22e memsize s 72 sw).2.1.halt = 2 ∧
    (oc_get_console m mme m22e memsize s 69 sw).2.1.halt = 1 ∧
    Frame.fclear ∈ (oc_get_console m mme m22e memsize s 69 sw).2.2.1 := by
  simp [oc_get_console, hr, finishCmd, handle_H, handle_E, oc_toggle_clear, oc_send_status]

/-- Witness for C6 at the concrete attach-time state with halt mode 0. -/
theorem halt_enable_commands_witness :
    zState.rcve = true ∧
    (oc_get_console Model.m1145 false false 0x40000 zState 72 zSwr).2.1.halt = 2 :=
  ⟨rfl, (halt_enable_commands Model.m1145 false false 0x40000 zState zSwr rfl).1⟩

/-- Helper: the 'H' and 'E' arms do not touch the first-flags. -/
theorem handle_H_flags (s : OcState) :
    (handle_H s).1.first_exam = s.first_exam ∧ (handle_H s).1.first_dep = s.first_dep := by
  simp [handle_H]

/-- Helper: the 'E' arm does not touch the first-flags. -/
theorem handle_E_flags (s : OcState) :
    (handle_E s).1.first_exam = s.first_exam ∧ (handle_E s).1.first_dep = s.first_dep := by
  simp [handle_E]

/-- Helper: the 'c' arm does not touch the first-flags. -/
theorem handle_c_flags (m : Model) (s : OcState) :
    (handle_c m s).1.first_exam = s.first_exam ∧ (handle_c m s).1.first_dep = s.first_dep := by
  unfold handle_c oc_clear_halt oc_port1
  split_ifs <;> cases m <;> simp

/-- Helper: the 's' arm does not touch the first-flags. -/
theorem handle_s_flags (m : Model) (s : OcState) :
    (handle_s m s).1.first_exam = s.first_exam ∧ (handle_s m s).1.first_dep = s.first_dep := by
  unfold handle_s oc_clear_halt oc_port1
  split_ifs <;> cases m <;> simp

/-- Helper: the 'd' arm either leaves both first-flags unchanged (rejected
deposit) or sets them to (true, false) (successful deposit). -/
theorem handle_d_flags_cases (m : Model) (mask : Nat) (s : OcState) (sw : Swr) :
    ((handle_d m mask s sw).1.first_exam = s.first_exam ∧
     (handle_d m mask s sw).1.first_dep = s.first_dep) ∨
    ((handle_d m mask s sw).1.first_exam = true ∧
     (handle_d m mask s sw).1.first_dep = false) := by
  cases m <;> unfold handle_d oc_get_swr oc_port1 <;> split_ifs <;> simp_all <;>
    split_ifs <;> simp_all

/-- Helper: the 'd' arm preserves the flags invariant. -/
theorem handle_d_flagsInv (m : Model) (mask : Nat) (s : OcState) (sw : Swr)
    (h : flagsInv s) : flagsInv (handle_d m mask s sw).1 := by
  rcases handle_d_flags_cases m mask s sw with ⟨h1, h2⟩ | ⟨h1, h2⟩
  · rcases h with h | h
    · exact Or.inl (h1.trans h)
    · exact Or.inr (h2.trans h)
  · exact Or.inl h1

/-- Helper: the 'l' arm sets both first-flags true. -/
theorem handle_l_flags (m : Model) (mask memsize : Nat) (s : OcState) (sw : Swr) :
    (handle_l m mask memsize s sw).1.first_exam = true ∧
    (handle_l m mask memsize s sw).1.first_dep = true := by
  unfold handle_l oc_get_swr oc_extract_address oc_port1
  split_ifs <;> cases m <;> simp

/-- Helper: the 'x' arm either leaves both first-flags unchanged (rejected
examine) or sets them to (false, true) (successful examine). -/
theorem handle_x_flags_cases (m : Model) (mask : Nat) (s : OcState) :
    ((handle_x m mask s).1.first_exam = s.first_exam ∧
     (handle_x m mask s).1.first_dep = s.first_dep) ∨
    ((handle_x m mask s).1.first_exam = false ∧
     (handle_x m mask s).1.first_dep = true) := by
  cases m <;> unfold handle_x oc_port1 <;> split_ifs <;> simp_all <;>
    split_ifs <;> simp_all

/-- Helper: the 'x' arm preserves the flags invariant. -/
theorem handle_x_flagsInv (m : Model) (mask : Nat) (s : OcState)
    (h : flagsInv s) : flagsInv (handle_x m mask s).1 := by
  rcases handle_x_flags_cases m mask s with ⟨h1, h2⟩ | ⟨h1, h2⟩
  · rcases h with h | h
    · exact Or.inl (h1.trans h)
    · exact Or.inr (h2.trans h)
  · exact Or.inr h2

/-- C10: first_exam and first_dep are both true right after attach; every
command processed by oc_get_console keeps the invariant that the two flags
are never both false (load-address sets both true, a successful examine
leaves (false, true), a successful deposit leaves (true, false), rejected
operations change neither flag). -/
theorem flags_never_both_false :
    (∀ (sw : Swr) (hd : Bool), flagsInv (oc_attach_init sw hd)) ∧
    (∀ (m : Model) (mme m22e : Bool) (memsize : Nat) (s : OcState) (c : Nat) (sw : Swr),
      flagsInv s → flagsInv (oc_get_console m mme m22e memsize s c sw).2.1) := by
  constructor
  · intro sw hd
    left
    rfl
  · intro m mme m22e memsize s c sw h
    unfold oc_get_console
    split
    · exact h
    · split
      · exact h
      · split
        · rcases h with h | h
          · exact Or.inl ((handle_H_flags s).1.trans h)
          · exact Or.inr ((handle_H_flags s).2.trans h)
        · rcases h with h | h
          · exact Or.inl ((handle_E_flags s).1.trans h)
          · exact Or.inr ((handle_E_flags s).2.trans h)
        · rcases h with h | h
          · exact Or.inl ((handle_c_flags m s).1.trans h)
          · exact Or.inr ((handle_c_flags m s).2.trans h)
        · exact handle_d_flagsInv m (mmuMask mme m22e) s sw h
        · exact Or.inl (handle_l_flags m (mmuMask mme m22e) memsize s sw).1
        · rcases h with h | h
          · exact Or.inl ((handle_s_flags m s).1.trans h)
          · exact Or.inr ((handle_s_flags m s).2.trans h)
        · exact handle_x_flagsInv m (mmuMask mme m22e) s h
        · exact h

/-- Witness for C10 applying the invariant preservation at a concrete
deposit from the attach state. -/
theorem flags_never_both_false_witness :
    flagsInv zState ∧
    flagsInv (oc_get_console Model.m1170 true true 0x400000 zState 100 zSwr).2.1 :=
  ⟨Or.inl rfl,
   flags_never_both_false.2 Model.m1170 true true 0x400000 zState 100 zSwr (Or.inl rfl)⟩

/-- Helper: when first_dep is false, every branch of the 'd' arm leaves
act_addr at the auto-incremented value (the increment runs before the
range checks). -/
theorem handle_d_act (m : Model) (mask : Nat) (s : OcState) (sw : Swr)
    (hd : s.first_dep = false) :
    (handle_d m mask s sw).1.act_addr = incrAddr s.act_addr := by
  cases m <;> unfold handle_d oc_get_swr oc_port1 <;> split_ifs <;> simp_all <;>
    split_ifs <;> simp_all

/-- Helper: when first_exam is false, every branch of the 'x' arm leaves
act_addr at the auto-incremented value. -/
theorem handle_x_act (m : Model) (mask : Nat) (s : OcState)
    (hx : s.first_exam = false) :
    (handle_x m mask s).1.act_addr = incrAddr s.act_addr := by
  cases m <;> unfold handle_x oc_port1 <;> split_ifs <;> simp_all <;>
    split_ifs <;> simp_all

/-- C4: for every examine or deposit that is not the first such operation
since the last mode change, act_addr is advanced by the shared rule: +1
inside the CPU-register alias window 0o777700..0o777707, otherwise +2
forced even with wraparound to 0 at the 22-bit boundary (0x3FFFFE + 2
wraps to 0, and 0o777700 becomes 0o777701). -/
theorem auto_increment_rule (m : Model) (mme m22e : Bool) (memsize : Nat)
    (s t : OcState) (sw : Swr) (a : Nat)
    (hrs : s.rcve = true) (hds : s.first_dep = false)
    (hrt : t.rcve = true) (hxt : t.first_exam = false)
    (ha : a ≤ 0x3FFFFF) :
    (oc_get_console m mme m22e memsize s 100 sw).2.1.act_addr = incrAddr s.act_addr ∧
    (oc_get_console m mme m22e memsize t 120 sw).2.1.act_addr = incrAddr t.act_addr ∧
    (a ≥ 0x3FFC0 ∧ a ≤ 0x3FFC7 → incrAddr a = a + 1) ∧
    (¬(a ≥ 0x3FFC0 ∧ a ≤ 0x3FFC7) →
      incrAddr a = if a + 2 > 0x3FFFFE then 0 else (a + 2) - (a + 2) % 2) ∧
    incrAddr 0o777700 = 0o777701 ∧
    incrAddr 0x3FFFFE = 0 := by
  refine ⟨?_, ?_, ?_, ?_, by decide, by decide⟩
  · have e : (oc_get_console m mme m22e memsize s 100 sw).2.1
        = (handle_d m (mmuMask mme m22e) s sw).1 := by
      simp [oc_get_console, hrs, finishCmd]
    rw [e]
    exact handle_d_act m (mmuMask mme m22e) s sw hds
  · have e : (oc_get_console m mme m22e memsize t 120 sw).2.1
        = (handle_x m (mmuMask mme m22e) t).1 := by
      simp [oc_get_console, hrt, finishCmd]
    rw [e]
    exact handle_x_act m (mmuMask mme m22e) t hxt
  · intro h
    unfold incrAddr
    rw [if_pos h]
  · intro h
    by_cases h2 : a + 2 > 0x3FFFFE
    · have e : incrAddr a = 0 := by
        simp only [incrAddr, if_neg h, if_pos h2, and_mask1]
        norm_num
      rw [e, if_pos h2]
    · have hlt : a + 2 < 0x400000 := by omega
      by_cases h3 : (a + 2) % 2 = 1
      · have e : incrAddr a = (a + 2) &&& 0x3FFFFE := by
          simp only [incrAddr, if_neg h, if_neg h2, and_mask1, h3]
          norm_num
        rw [e, and_evenmask (a + 2) hlt, if_neg h2]
      · have hmod : (a + 2) % 2 = 0 := by omega
        have e : incrAddr a = a + 2 := by
          simp only [incrAddr, if_neg h, if_neg h2, and_mask1, hmod]
          norm_num
        rw [e, if_neg h2]
        omega

/-- Witness for C4: a second deposit at 0o777700 advances act_addr to
0o777701. -/
theorem auto_increment_rule_witness :
    ({ zState with first_dep := false, act_addr := 0o777700 } : OcState).rcve = true ∧
    (oc_get_console Model.m1170 true true 0x400000
        { zState with first_dep := false, act_addr := 0o777700 } 100 zSwr).2.1.act_addr
      = incrAddr 0o777700 ∧
    incrAddr 0o777700 = 0o777701 := by
  refine ⟨rfl, ?_, by decide⟩
  exact (auto_increment_rule Model.m1170 true true 0x400000
      { zState with first_dep := false, act_addr := 0o777700 }
      { zState with first_exam := false } zSwr 0o777700
      rfl rfl rfl rfl (by decide)).1

/-- C7: for every address already masked to a given width, the matching MMU
top-byte mask (0x00/0x03/0x3F for 16/18/22-bit mode) and every 16-bit data
value, reassembling the big-endian payload bytes of the 'B' frame emitted
by oc_send_address_data recovers the original address and data. -/
theorem address_data_roundtrip (s : OcState) (A D : Nat)
    (hr : s.rcve = true) (hD : D < 0x10000) :
    mmuMask false false = 0x00 ∧ mmuMask false true = 0x00 ∧
    mmuMask true false = 0x03 ∧ mmuMask true true = 0x3F ∧
    (A < 0x10000 →
      (oc_send_address_data s (mmuMask false false) A D).map reassembleAddr = [A] ∧
      (oc_send_address_data s (mmuMask false false) A D).map reassembleData = [D]) ∧
    (A < 0x40000 →
      (oc_send_address_data s (mmuMask true false) A D).map reassembleAddr = [A] ∧
      (oc_send_address_data s (mmuMask true false) A D).map reassembleData = [D]) ∧
    (A < 0x400000 →
      (oc_send_address_data s (mmuMask true true) A D).map reassembleAddr = [A] ∧
      (oc_send_address_data s (mmuMask true true) A D).map reassembleData = [D]) := by
  refine ⟨rfl, rfl, rfl, rfl, ?_, ?_, ?_⟩ <;> intro hA <;> constructor <;>
    simp [oc_send_address_data, hr, mmuMask, reassembleAddr, reassembleData,
      and_mask255, and_mask3, and_mask63] <;>
    omega

/-- Witness for C7 at a concrete 18-bit address and data word. -/
theorem address_data_roundtrip_witness :
    zState.rcve = true ∧ (0x1234 : Nat) < 0x10000 ∧ (0x2FFFE : Nat) < 0x40000 ∧
    (oc_send_address_data zState (mmuMask true false) 0x2FFFE 0x1234).map reassembleAddr
      = [0x2FFFE] := by
  refine ⟨rfl, by decide, by decide, ?_⟩
  exact ((address_data_roundtrip zState 0x2FFFE 0x1234 rfl
      (by decide)).2.2.2.2.2.1 (by decide)).1

/-- Helper: the final status push never contains an acknowledge frame. -/
theorem countP_ack_status (t : OcState) : (oc_send_status t).countP isAck = 0 := by
  unfold oc_send_status
  split <;> simp [isAck]

/-- Helper: the 'c' arm emits exactly one acknowledge frame when the link
is up. -/
theorem countP_ack_handle_c (m : Model) (s : OcState) (hr : s.rcve = true) :
    (handle_c m s).2.1.countP isAck = 1 := by
  unfold handle_c oc_toggle_ack oc_clear_halt oc_toggle_clear oc_port1
  cases m <;> split_ifs <;> simp_all [isAck]

/-- Helper: the 'd' arm emits exactly one acknowledge frame when the link
is up. -/
theorem countP_ack_handle_d (m : Model) (mask : Nat) (s : OcState) (sw : Swr)
    (hr : s.rcve = true) : (handle_d m mask s sw).2.1.countP isAck = 1 := by
  unfold handle_d oc_get_swr oc_toggle_ack oc_send_address_data oc_port1
  cases m <;> split_ifs <;> simp_all [isAck] <;> split_ifs <;> simp_all [isAck]

/-- Helper: the 'l' arm emits exactly one acknowledge frame when the link
is up. -/
theorem countP_ack_handle_l (m : Model) (mask memsize : Nat) (s : OcState) (sw : Swr)
    (hr : s.rcve = true) : (handle_l m mask memsize s sw).2.1.countP isAck = 1 := by
  unfold handle_l oc_get_swr oc_toggle_ack oc_send_address oc_extract_address oc_port1
  cases m <;> split_ifs <;> simp_all [isAck] <;> split_ifs <;> simp_all [isAck]

/-- Helper: the 'x' arm emits exactly one acknowledge frame when the link
is up. -/
theorem countP_ack_handle_x (m : Model) (mask : Nat) (s : OcState)
    (hr : s.rcve = true) : (handle_x m mask s).2.1.countP isAck = 1 := by
  unfold handle_x oc_toggle_ack oc_send_address oc_port1
  cases m <;> split_ifs <;> simp_all [isAck] <;> split_ifs <;> simp_all [isAck]

/-- Helper: the 's' arm emits no acknowledge frame (the call is disabled in
the source). -/
theorem countP_ack_handle_s (m : Model) (s : OcState) :
    (handle_s m s).2.1.countP isAck = 0 := by
  unfold handle_s oc_clear_halt oc_toggle_clear oc_port1
  cases m <;> split_ifs <;> simp_all [isAck]

/-- C1 counterexample: processing the continue byte 'c' does emit an
acknowledge-one-toggle frame ('c' + port byte 0x32 + ACK_CONT), refuting
the claim that no explicit acknowledgement is sent for continue. -/
theorem continue_ack_counterexample :
    ((oc_get_console Model.m1170 true true 0x400000 zState 99 zSwr).2.2.1).countP isAck = 1 ∧
    Frame.fack 0x32 ACK_CONT
      ∈ (oc_get_console Model.m1170 true true 0x400000 zState 99 zSwr).2.2.1 := by
  decide

/-- C1 (amended): the continue ('c'), deposit ('d'), load-address ('l') and
examine ('x') commands each emit exactly one acknowledge-one-toggle frame,
while start ('s') emits none — its oc_toggle_ack call is the disabled one
in this source. -/
theorem ack_frame_asymmetry (m : Model) (mme m22e : Bool) (memsize : Nat)
    (s : OcState) (sw : Swr) (hr : s.rcve = true) :
    ((oc_get_console m mme m22e memsize s 99 sw).2.2.1).countP isAck = 1 ∧
    ((oc_get_console m mme m22e memsize s 100 sw).2.2.1).countP isAck = 1 ∧
    ((oc_get_console m mme m22e memsize s 108 sw).2.2.1).countP isAck = 1 ∧
    ((oc_get_console m mme m22e memsize s 120 sw).2.2.1).countP isAck = 1 ∧
    ((oc_get_console m mme m22e memsize s 115 sw).2.2.1).countP isAck = 0 := by
  refine ⟨?_, ?_, ?_, ?_, ?_⟩
  · have e : (oc_get_console m mme m22e memsize s 99 sw).2.2.1
        = (handle_c m s).2.1 ++ oc_send_status (handle_c m s).1 := by
      simp [oc_get_console, hr, finishCmd]
    rw [e, List.countP_append, countP_ack_handle_c m s hr, countP_ack_status]
  · have e : (oc_get_console m mme m22e memsize s 100 sw).2.2.1
        = (handle_d m (mmuMask mme m22e) s sw).2.1
            ++ oc_send_status (handle_d m (mmuMask mme m22e) s sw).1 := by
      simp [oc_get_console, hr, finishCmd]
    rw [e, List.countP_append, countP_ack_handle_d m (mmuMask mme m22e) s sw hr,
      countP_ack_status]
  · have e : (oc_get_console m mme m22e memsize s 108 sw).2.2.1
        = (handle_l m (mmuMask mme m22e) memsize s sw).2.1
            ++ oc_send_status (handle_l m (mmuMask mme m22e) memsize s sw).1 := by
      simp [oc_get_console, hr, finishCmd]
    rw [e, List.countP_append, countP_ack_handle_l m (mmuMask mme m22e) memsize s sw hr,
      countP_ack_status]
  · have e : (oc_get_console m mme m22e memsize s 120 sw).2.2.1
        = (handle_x m (mmuMask mme m22e) s).2.1
            ++ oc_send_status (handle_x m (mmuMask mme m22e) s).1 := by
      simp [oc_get_console, hr, finishCmd]
    rw [e, List.countP_append, countP_ack_handle_x m (mmuMask mme m22e) s hr,
      countP_ack_status]
  · have e : (oc_get_console m mme m22e memsize s 115 sw).2.2.1
        = (handle_s m s).2.1 ++ oc_send_status (handle_s m s).1 := by
      simp [oc_get_console, hr, finishCmd]
    rw [e, List.countP_append, countP_ack_handle_s m s, countP_ack_status]

/-- Witness for C1 (amended) at the attach-time state. -/
theorem ack_frame_asymmetry_witness :
    zState.rcve = true ∧
    ((oc_get_console Model.m1145 true false 0x40000 zState 115 zSwr).2.2.1).countP isAck
      = 0 :=
  ⟨rfl, (ack_frame_asymmetry Model.m1145 true false 0x40000 zState zSwr rfl).2.2.2.2⟩

/-- Helper: the boot-ROM test of the 'd' arm accepts exactly the two low
windows of the 18-bit-masked address; the two mirrored-range comparisons of
the source can never be true because the compared value is already below
0x40000. -/
theorem bootRomHit_low_only (a : Nat) :
    bootRomHit a = true ↔
      ((a &&& 0x3FFFF) ≥ 0xEA00 ∧ (a &&& 0x3FFFF) < 0xEC00) ∨
      ((a &&& 0x3FFFF) ≥ 0xF600 ∧ (a &&& 0x3FFFF) < 0xF800) := by
  unfold bootRomHit
  rw [and_mask18]
  simp only [decide_eq_true_eq]
  constructor
  · rintro (h | h | h | h)
    · omega
    · exact Or.inl h
    · omega
    · exact Or.inr h
  · rintro (h | h)
    · exact Or.inr (Or.inl h)
    · exact Or.inr (Or.inr (Or.inr h))

/-- Helper: a deposit whose (auto-incremented) target hits the boot-ROM
test is rejected with the BootRomProtected comment, no 'B' frame, both
first-flags unchanged and act_addr left at the target. -/
theorem handle_d_bootrom (m : Model) (mask : Nat) (s : OcState) (sw : Swr) (t : Nat)
    (hr : s.rcve = true) (hinv : s.inv_addr = false)
    (ht : t = if s.first_dep = true then s.act_addr else incrAddr s.act_addr)
    (hrom : bootRomHit t = true) :
    (handle_d m mask s sw).2.2 = Cmd.bootRom ∧
    (handle_d m mask s sw).1.act_addr = t ∧
    (handle_d m mask s sw).1.first_dep = s.first_dep ∧
    (handle_d m mask s sw).1.first_exam = s.first_exam ∧
    (handle_d m mask s sw).2.1.countP isB = 0 := by
  subst ht
  unfold handle_d oc_get_swr oc_toggle_ack
  rcases hd : s.first_dep <;> simp_all [isB]

/-- C3 counterexample: a deposit targeting 0x3FEA00 (octal 17765000, the
[0xEA00,0xEC00) window mirrored at +0x3F0000) is NOT rejected — the code
emits the deposit pseudo-command and the address+data 'B' frame, arms the
deposit auto-increment, and the boot-ROM test misses the address. -/
theorem bootrom_mirror_counterexample :
    (oc_get_console Model.m1170 true true 0x400000
        { zState with act_addr := 0x3FEA00 } 100 zSwr).2.2.2
      = some (Cmd.deposit 0x3FEA00 0) ∧
    ((oc_get_console Model.m1170 true true 0x400000
        { zState with act_addr := 0x3FEA00 } 100 zSwr).2.2.1).countP isB = 1 ∧
    (oc_get_console Model.m1170 true true 0x400000
        { zState with act_addr := 0x3FEA00 } 100 zSwr).2.1.first_dep = false ∧
    bootRomHit 0x3FEA00 = false := by
  decide

/-- C3 (amended): a deposit is rejected as boot-ROM protected exactly when
the 18-bit-masked target lies in [0xEA00,0xEC00) or [0xF600,0xF800) (the
mirrored +0x3F0000 comparisons of the source can never hold); on rejection
the BootRomProtected comment is produced instead of a deposit
pseudo-command, no 'B' frame is emitted, first_exam/first_dep are
unchanged, and act_addr keeps the target value (the shared auto-increment
has already run when the deposit is not the first one). -/
theorem bootrom_reject_low_windows (m : Model) (mme m22e : Bool) (memsize : Nat)
    (s : OcState) (sw : Swr) (t a : Nat)
    (hr : s.rcve = true) (hinv : s.inv_addr = false)
    (ht : t = if s.first_dep = true then s.act_addr else incrAddr s.act_addr)
    (hrom : bootRomHit t = true) :
    (oc_get_console m mme m22e memsize s 100 sw).2.2.2 = some Cmd.bootRom ∧
    (oc_get_console m mme m22e memsize s 100 sw).2.1.act_addr = t ∧
    (oc_get_console m mme m22e memsize s 100 sw).2.1.first_dep = s.first_dep ∧
    (oc_get_console m mme m22e memsize s 100 sw).2.1.first_exam = s.first_exam ∧
    ((oc_get_console m mme m22e memsize s 100 sw).2.2.1).countP isB = 0 ∧
    (bootRomHit a = true ↔
      ((a &&& 0x3FFFF) ≥ 0xEA00 ∧ (a &&& 0x3FFFF) < 0xEC00) ∨
      ((a &&& 0x3FFFF) ≥ 0xF600 ∧ (a &&& 0x3FFFF) < 0xF800)) := by
  have e : oc_get_console m mme m22e memsize s 100 sw
      = finishCmd (handle_d m (mmuMask mme m22e) s sw) := by
    simp [oc_get_console, hr]
  obtain ⟨h1, h2, h3, h4, h5⟩ :=
    handle_d_bootrom m (mmuMask mme m22e) s sw t hr hinv ht hrom
  refine ⟨?_, ?_, ?_, ?_, ?_, bootRomHit_low_only a⟩
  · rw [e]
    simp [finishCmd, h1]
  · rw [e]
    simpa [finishCmd] using h2
  · rw [e]
    simpa [finishCmd] using h3
  · rw [e]
    simpa [finishCmd] using h4
  · rw [e]
    simp [finishCmd, List.countP_append, h5]
    unfold oc_send_status
    split <;> simp [isB]

/-- Witness for C3 (amended): a first deposit at 0xEA00 (octal 165000) is
rejected with no 'B' frame. -/
theorem bootrom_reject_low_windows_witness :
    ({ zState with act_addr := 0xEA00 } : OcState).rcve = true ∧
    (oc_get_console Model.m1170 true true 0x400000
        { zState with act_addr := 0xEA00 } 100 zSwr).2.2.2 = some Cmd.bootRom := by
  refine ⟨rfl, ?_⟩
  exact (bootrom_reject_low_windows Model.m1170 true true 0x400000
      { zState with act_addr := 0xEA00 } zSwr 0xEA00 0 rfl rfl (by decide) (by decide)).1

/-- Helper: the halt poll never changes the receiver flag. -/
theorem oc_get_halt_rcve (m : Model) (s : OcState) (b : Nat) :
    (oc_get_halt m s b).1.rcve = s.rcve := by
  unfold oc_get_halt
  split_ifs <;> simp

/-- Helper: the halt poll never changes c_upd. -/
theorem oc_get_halt_c_upd (m : Model) (s : OcState) (b : Nat) :
    (oc_get_halt m s b).1.c_upd = s.c_upd := by
  unfold oc_get_halt
  split_ifs <;> simp

/-- Helper: the halt poll never changes c_rot. -/
theorem oc_get_halt_c_rot (m : Model) (s : OcState) (b : Nat) :
    (oc_get_halt m s b).1.c_rot = s.c_rot := by
  unfold oc_get_halt
  split_ifs <;> simp

/-- Helper: the rotary query never changes the receiver flag. -/
theorem oc_get_rotary_rcve (m : Model) (s : OcState) (b : Nat) :
    (oc_get_rotary m s b).1.rcve = s.rcve := by
  unfold oc_get_rotary
  split_ifs <;> cases m <;> simp

/-- Helper: the rotary query never changes c_upd. -/
theorem oc_get_rotary_c_upd (m : Model) (s : OcState) (b : Nat) :
    (oc_get_rotary m s b).1.c_upd = s.c_upd := by
  unfold oc_get_rotary
  split_ifs <;> cases m <;> simp

/-- Helper: the rotary query never changes c_rot. -/
theorem oc_get_rotary_c_rot (m : Model) (s : OcState) (b : Nat) :
    (oc_get_rotary m s b).1.c_rot = s.c_rot := by
  unfold oc_get_rotary
  split_ifs <;> cases m <;> simp

/-- Helper: the 11/70 rotary query sends exactly the 'R' byte when the
link is up. -/
theorem oc_get_rotary_frames_1170 (s : OcState) (b : Nat) (hr : s.rcve = true) :
    (oc_get_rotary Model.m1170 s b).2 = [Frame.frotary] := by
  unfold oc_get_rotary
  simp [hr]

/-- Helper: the halt poll emits no address/data/status/rotary frames. -/
theorem oc_get_halt_frames_count (m : Model) (s : OcState) (b : Nat) (p : Frame → Bool)
    (h1 : p Frame.fclear = false) : (oc_get_halt m s b).2.1.countP p = 0 := by
  unfold oc_get_halt oc_toggle_clear
  split_ifs <;> simp [h1]

/-- Helper: one scheduler tick never changes the receiver flag. -/
theorem schedStep_rcve (m : Model) (mask A D : Nat) (inp : TickInp) (s : OcState) :
    (schedStep m mask A D inp s).1.rcve = s.rcve := by
  unfold schedStep
  by_cases hu : s.c_upd > 4 <;> by_cases hv : s.c_rot > 2 <;>
    simp [hu, hv, oc_get_halt_rcve, oc_get_rotary_rcve]

/-- Helper: one scheduler tick moves the two counters exactly as cntStep. -/
theorem schedStep_cnt (m : Model) (mask A D : Nat) (inp : TickInp) (s : OcState) :
    ((schedStep m mask A D inp s).1.c_upd, (schedStep m mask A D inp s).1.c_rot)
      = cntStep (s.c_upd, s.c_rot) := by
  unfold schedStep cntStep
  by_cases hu : s.c_upd > 4 <;> by_cases hv : s.c_rot > 2 <;>
    simp [hu, hv, oc_get_halt_c_upd, oc_get_halt_c_rot, oc_get_rotary_c_upd,
      oc_get_rotary_c_rot]

/-- Helper: the frame classes one 11/70 tick emits depend only on the two
counters: a 'U' frame when c_upd has passed its threshold, a rotary
re-poll when additionally c_rot has passed its threshold, a 'B' frame
otherwise. -/
theorem schedStep_counts (mask A D : Nat) (inp : TickInp) (s : OcState)
    (hr : s.rcve = true) :
    ((schedStep Model.m1170 mask A D inp s).2.countP isU
      = if s.c_upd > 4 then 1 else 0) ∧
    ((schedStep Model.m1170 mask A D inp s).2.countP isRot
      = if s.c_upd > 4 ∧ s.c_rot > 2 then 1 else 0) ∧
    ((schedStep Model.m1170 mask A D inp s).2.countP isB
      = if s.c_upd > 4 then 0 else 1) := by
  unfold schedStep
  by_cases hu : s.c_upd > 4 <;> by_cases hv : s.c_rot > 2 <;>
    simp [hu, hv, hr, oc_send_all, oc_send_address_data, oc_get_rotary_frames_1170,
      oc_get_halt_frames_count, List.countP_append, List.countP_cons, isU, isB, isRot]

/-- Helper: iterated ticks never change the receiver flag. -/
theorem schedRun_rcve (m : Model) (mask A D : Nat) (inp : TickInp) (n : Nat) (s : OcState) :
    (schedRun m mask A D inp s n).1.rcve = s.rcve := by
  induction n generalizing s with
  | zero => rfl
  | succ n ih =>
      have e : (schedRun m mask A D inp s (n + 1)).1
          = (schedRun m mask A D inp (schedStep m mask A D inp s).1 n).1 := rfl
      rw [e, ih, schedStep_rcve]

/-- Helper: iterated ticks move the counters exactly as cntIter. -/
theorem schedRun_cnt (m : Model) (mask A D : Nat) (inp : TickInp) (n : Nat) (s : OcState) :
    ((schedRun m mask A D inp s n).1.c_upd, (schedRun m mask A D inp s n).1.c_rot)
      = cntIter (s.c_upd, s.c_rot) n := by
  induction n generalizing s with
  | zero => rfl
  | succ n ih =>
      have e : (schedRun m mask A D inp s (n + 1)).1
          = (schedRun m mask A D inp (schedStep m mask A D inp s).1 n).1 := rfl
      have e2 : cntIter (s.c_upd, s.c_rot) (n + 1)
          = cntIter (cntStep (s.c_upd, s.c_rot)) n := rfl
      rw [e, e2, ← schedStep_cnt m mask A D inp s]
      exact ih _

/-- Helper: the frame-class counts of an 11/70 run depend only on the two
counters, via the pure counting functions. -/
theorem schedRun_counts (mask A D : Nat) (inp : TickInp) (n : Nat) (s : OcState)
    (hr : s.rcve = true) :
    ((schedRun Model.m1170 mask A D inp s n).2.countP isU = uCnt (s.c_upd, s.c_rot) n) ∧
    ((schedRun Model.m1170 mask A D inp s n).2.countP isRot = rotCnt (s.c_upd, s.c_rot) n) ∧
    ((schedRun Model.m1170 mask A D inp s n).2.countP isB = bCnt (s.c_upd, s.c_rot) n) := by
  induction n generalizing s with
  | zero => exact ⟨rfl, rfl, rfl⟩
  | succ n ih =>
      have e : (schedRun Model.m1170 mask A D inp s (n + 1)).2
          = (schedStep Model.m1170 mask A D inp s).2
              ++ (schedRun Model.m1170 mask A D inp
                    (schedStep Model.m1170 mask A D inp s).1 n).2 := rfl
      have hr1 : (schedStep Model.m1170 mask A D inp s).1.rcve = true := by
        rw [schedStep_rcve]
        exact hr
      obtain ⟨i1, i2, i3⟩ := ih (schedStep Model.m1170 mask A D inp s).1 hr1
      have hc := schedStep_cnt Model.m1170 mask A D inp s
      rw [hc] at i1 i2 i3
      obtain ⟨c1, c2, c3⟩ := schedStep_counts mask A D inp s hr
      refine ⟨?_, ?_, ?_⟩
      · rw [e, List.countP_append, c1, i1]
        rfl
      · rw [e, List.countP_append, c2, i2]
        rfl
      · rw [e, List.countP_append, c3, i3]
        rfl

/-- Helper: counter iteration splits over addition. -/
theorem cntIter_add (p : Nat × Nat) (a b : Nat) :
    cntIter p (a + b) = cntIter (cntIter p a) b := by
  induction a generalizing p with
  | zero =>
      rw [Nat.zero_add]
      rfl
  | succ a ih =>
      have e1 : a + 1 + b = (a + b) + 1 := by omega
      have e2 : cntIter p ((a + b) + 1) = cntIter (cntStep p) (a + b) := rfl
      have e3 : cntIter p (a + 1) = cntIter (cntStep p) a := rfl
      rw [e1, e2, e3]
      exact ih (cntStep p)

/-- Helper: the scheduler counters return to (0, 0) every 24 ticks. -/
theorem cntIter_period (k : Nat) : cntIter (0, 0) (24 * k) = (0, 0) := by
  induction k with
  | zero => rfl
  | succ k ih =>
      have e : 24 * (k + 1) = 24 * k + 24 := by ring
      rw [e, cntIter_add, ih]
      decide

/-- C2 counterexample: over the first 15 service ticks from zeroed
counters the scheduler emits 13 'B' frames, 2 'U' frames and 0 rotary
re-polls — not the claimed 12 'B', 3 'U' and 1 rotary re-poll. -/
theorem sched_ratio_counterexample :
    ((schedRun Model.m1170 0x3F 0 0 zInp zState 15).2.countP isU = 2) ∧
    ((schedRun Model.m1170 0x3F 0 0 zInp zState 15).2.countP isRot = 0) ∧
    ((schedRun Model.m1170 0x3F 0 0 zInp zState 15).2.countP isB = 13) := by
  decide

/-- C2 (amended): starting from zeroed counters, every aligned block of 24
consecutive service ticks that pass the rescheduling time check contains
exactly 4 ticks emitting the full status ('U') frame, exactly 1 of which
additionally re-polls the rotary switches, and 20 ticks emitting the
address+data-only ('B') frame — a 1 : 6 : 24 ratio between the
address/data, status and rotary refresh classes. -/
theorem sched_ratio_1_6_24 (s : OcState) (mask A D : Nat) (inp : TickInp) (k : Nat)
    (hr : s.rcve = true) (hu : s.c_upd = 0) (hv : s.c_rot = 0) :
    ((schedRun Model.m1170 mask A D inp
        ((schedRun Model.m1170 mask A D inp s (24 * k)).1) 24).2.countP isU = 4) ∧
    ((schedRun Model.m1170 mask A D inp
        ((schedRun Model.m1170 mask A D inp s (24 * k)).1) 24).2.countP isRot = 1) ∧
    ((schedRun Model.m1170 mask A D inp
        ((schedRun Model.m1170 mask A D inp s (24 * k)).1) 24).2.countP isB = 20) := by
  have hr1 : ((schedRun Model.m1170 mask A D inp s (24 * k)).1).rcve = true := by
    rw [schedRun_rcve]
    exact hr
  have hc : (((schedRun Model.m1170 mask A D inp s (24 * k)).1).c_upd,
             ((schedRun Model.m1170 mask A D inp s (24 * k)).1).c_rot) = (0, 0) := by
    rw [schedRun_cnt, hu, hv, cntIter_period]
  obtain ⟨r1, r2, r3⟩ :=
    schedRun_counts mask A D inp 24 ((schedRun Model.m1170 mask A D inp s (24 * k)).1) hr1
  rw [hc] at r1 r2 r3
  refine ⟨?_, ?_, ?_⟩
  · rw [r1]
    decide
  · rw [r2]
    decide
  · rw [r3]
    decide

/-- Witness for C2 (amended): the second 24-tick block from the attach
state contains exactly 4 'U' frames. -/
theorem sched_ratio_1_6_24_witness :
    zState.rcve = true ∧ zState.c_upd = 0 ∧ zState.c_rot = 0 ∧
    ((schedRun Model.m1170 0x3F 0 0 zInp
        ((schedRun Model.m1170 0x3F 0 0 zInp zState (24 * 1)).1) 24).2.countP isU = 4) :=
  ⟨rfl, rfl, rfl, (sched_ratio_1_6_24 zState 0x3F 0 0 zInp 1 rfl rfl rfl).1⟩

end Opcon
